import Mathlib

/-!
Shallow embedding of the smartio_platform backend (FastAPI + SQLAlchemy),
covering the authentication stack in `app/core/security.py`, the login,
registration and admin CRUD handlers in `app/main.py`, and the persistence
helpers in `app/crud/smartio_crud.py`.

Database rows become Lean structures, the database session becomes an
explicit `DB` record of row lists, and each handler becomes a function that
takes the pre-state and returns the post-state together with an
`Except`-style outcome mirroring FastAPI's `HTTPException` paths.  Python
dynamic failures (an `AttributeError` on a missing pydantic field, a
`TypeError` on an unexpected keyword argument) are embedded explicitly where
the source can raise them.
-/

namespace Smartio

/-- An `HTTPException` as raised by the handlers: status code plus detail
string. -/
structure HttpError where
  statusCode : Nat
  detail : String
deriving DecidableEq, Repr

/-- Python runtime errors that the embedded code can raise:
`AttributeError` from reading a missing pydantic model field, `TypeError`
from calling a function with an unexpected keyword argument, `ValueError`
from `uuid.UUID` on a non-UUID string, pydantic's `ValidationError` from a
model constructor rejecting a field value, and SQLAlchemy's
`IntegrityError` from a commit that violates a database constraint.  None
of these is caught by the handlers, so each surfaces as a 500. -/
inductive PyErr where
  | attributeError
  | typeError
  | valueError
  | validationError
  | integrityError
deriving DecidableEq, Repr

/-- A handler failure is either an `HTTPException` or an uncaught Python
runtime error. -/
inductive HandlerErr where
  | http (e : HttpError)
  | py (e : PyErr)
deriving DecidableEq, Repr

/-! ## Token model (`app/core/security.py`)

`create_access_token` JWT-encodes a claim dict with the configured
`SECRET_KEY`; `jwt.decode` re-checks the signature and the `exp` claim and
raises `JWTError` on failure.  A token is embedded as either garbage
(`malformed`, any string `jwt.decode` cannot parse) or a signed payload
carrying the key it was signed with; decoding against the server key
succeeds exactly when the keys agree and the token is not expired. -/

/-- The claim dict passed to `create_access_token` before the `exp` claim is
added: the login endpoints populate `sub` and `is_admin`;
`_get_current_client_from_token` additionally looks for `client_db_id`. -/
structure ClaimsDict where
  sub : Option String
  is_admin : Option Bool
  client_db_id : Option String
deriving DecidableEq, Repr

/-- A decoded JWT payload: the claim dict plus the `exp` claim (seconds
since epoch, as a natural number). -/
structure Payload where
  sub : Option String
  is_admin : Option Bool
  client_db_id : Option String
  exp : Nat
deriving DecidableEq, Repr

/-- A JWT as seen by the verifier: either undecodable garbage or a payload
signed with some key. -/
inductive JwtToken where
  | malformed
  | signed (payload : Payload) (key : String)
deriving DecidableEq, Repr

/-- `jwt.decode(token, SECRET_KEY, algorithms=[ALGORITHM])`: fails (raises
`JWTError`, here `none`) on garbage, on a signature made with a different
key, and on an `exp` claim in the past. -/
def jwtDecode (secretKey : String) (now : Nat) : JwtToken → Option Payload
  | .malformed => none
  | .signed p k =>
      if k == secretKey then
        if p.exp < now then none else some p
      else none

/-- `create_access_token(data, expires_delta)`: copies the claim dict, adds
`exp = now + expires_delta` and signs with the secret key. -/
def create_access_token (data : ClaimsDict) (expiresDelta : Nat)
    (secretKey : String) (now : Nat) : JwtToken :=
  .signed { sub := data.sub, is_admin := data.is_admin,
            client_db_id := data.client_db_id, exp := now + expiresDelta }
    secretKey

/-! ## Password hashing (`app/core/security.py`)

Modelled from the spec: `get_password_hash` / `verify_password` delegate to
passlib's bcrypt context, which is an external library and not part of this
repository.  Spec section 4.1 describes the component: a one-way salted
hash, where verification compares the plaintext against the stored hash.
The salt (drawn fresh by bcrypt on every hash call) is made an explicit
argument, and the key-stretched digest is abstracted to the password string
itself — this keeps exactly the observable algebra the spec states
(different salts give different stored hashes; verification accepts the
original password and rejects others) while eliding the irreversible
compression, which a shallow embedding cannot express. -/

/-- A bcrypt hash string: the embedded salt plus the password digest. -/
structure BcryptHash where
  salt : String
  digest : String
deriving DecidableEq, Repr

/-- `get_password_hash(password)`: one-way salted hash of the password; the
fresh salt bcrypt draws internally is the explicit second argument. -/
def get_password_hash (password : String) (salt : String) : BcryptHash :=
  { salt := salt, digest := password }

/-- `verify_password(plain_password, hashed_password)`: checks the
plaintext against the stored hash. -/
def verify_password (plain : String) (hashed : BcryptHash) : Bool :=
  hashed.digest == plain

/-! ## Database rows (`app/models/smartio_models.py`) -/

/-- A row of `subscription_types`. -/
structure SubTypeRec where
  id : Nat
  name : String
  options : List String
  price : Rat
  discount : Rat
  is_active : Bool
deriving DecidableEq, Repr

/-- A row of `clients`.  Timestamps are seconds since epoch. -/
structure ClientRec where
  id : Nat
  username : String
  hashed_password : BcryptHash
  company_name : String
  company_type : String
  inn : Option String
  contact_email : String
  phone_number : Option String
  client_db_id : String
  subscription_type_id : Nat
  purchase_date : Nat
  renewal_date : Option Nat
  is_active : Bool
deriving DecidableEq, Repr

/-- A row of `admin_users`. -/
structure AdminRec where
  id : Nat
  username : String
  hashed_password : BcryptHash
  email : String
  is_active : Bool
  is_superadmin : Bool
deriving DecidableEq, Repr

/-- A row of `blog_posts`. -/
structure BlogPostRec where
  id : Nat
  title : String
  short_description : Option String
  content : String
  image_url : Option String
  video_url : Option String
  author_id : Nat
  is_published : Bool
deriving DecidableEq, Repr

/-- A Python attribute value, for the dynamically-typed parts of the model
(pydantic objects read with `getattr`, and the `FuturePlan` constructor
whose keyword arguments come straight from such reads). -/
inductive PyValue where
  | str (s : String)
  | bool (b : Bool)
  | nat (n : Nat)
  | none
deriving DecidableEq, BEq, Repr

/-- A row of `future_plans`.  Field values are kept as Python values
because `create_future_plan` populates them from dynamic attribute reads on
its `FuturePlanCreate` argument. -/
structure FuturePlanRec where
  id : Nat
  title : PyValue
  short_description : PyValue
  full_description : PyValue
  image_url : PyValue
  video_url : PyValue
  target_date : PyValue
  category : PyValue
  is_active : PyValue
deriving DecidableEq, Repr

/-- Python truthiness of a value (`if not x` tests). -/
def pyTruthy : PyValue → Bool
  | .str s => s ≠ ""
  | .bool b => b
  | .nat n => n ≠ 0
  | .none => false

/-- A row of `subscription_periods`.  `subscription_type_id` is a NOT NULL
foreign key; the ORM relationship carries `cascade="all, delete-orphan"`,
so deleting a subscription type deletes its periods. -/
structure SubscriptionPeriodRec where
  id : Nat
  subscription_type_id : Nat
  months : Nat
  discount_percentage : Rat
  is_active : Bool
deriving DecidableEq, Repr

/-- A row of `payment_transactions`.  Both `client_id` and
`subscription_type_id` are NOT NULL foreign keys, and neither the ORM
relationships nor the columns define a delete cascade. -/
structure PaymentTransactionRec where
  id : Nat
  client_id : Nat
  subscription_type_id : Nat
  amount : Rat
  currency : String
  status : String
  transaction_date : Nat
deriving DecidableEq, Repr

/-- A row of `social_accounts`.  `client_id` is a NOT NULL foreign key;
`Client.social_accounts` carries `cascade="all, delete-orphan"`, so
deleting a client deletes its social accounts. -/
structure SocialAccountRec where
  id : Nat
  client_id : Nat
  provider : String
  social_id : String
  email : Option String
deriving DecidableEq, Repr

/-- The SMARTIO database state: one list of rows per table the verified
claims touch, including the tables whose NOT NULL foreign keys constrain
deletes and updates. -/
structure DB where
  clients : List ClientRec
  admins : List AdminRec
  subscription_types : List SubTypeRec
  subscription_periods : List SubscriptionPeriodRec
  payment_transactions : List PaymentTransactionRec
  social_accounts : List SocialAccountRec
  blog_posts : List BlogPostRec
  future_plans : List FuturePlanRec
deriving DecidableEq, Repr

/-- The empty database state. -/
def emptyDB : DB :=
  { clients := [], admins := [], subscription_types := [],
    subscription_periods := [], payment_transactions := [],
    social_accounts := [], blog_posts := [], future_plans := [] }

/-! ## CRUD queries (`app/crud/smartio_crud.py`) -/

/-- `get_client_by_username`: first `clients` row with the given username. -/
def get_client_by_username (db : DB) (username : String) : Option ClientRec :=
  db.clients.find? (fun c => c.username == username)

/-- `get_client_by_email`: first `clients` row with the given contact email. -/
def get_client_by_email (db : DB) (email : String) : Option ClientRec :=
  db.clients.find? (fun c => c.contact_email == email)

/-- `get_client_by_id`: first `clients` row with the given primary key. -/
def get_client_by_id (db : DB) (client_id : Nat) : Option ClientRec :=
  db.clients.find? (fun c => c.id == client_id)

/-- `get_admin_user_by_username`: first `admin_users` row with the given
username. -/
def get_admin_user_by_username (db : DB) (username : String) : Option AdminRec :=
  db.admins.find? (fun a => a.username == username)

/-- `get_admin_user_by_email`: first `admin_users` row with the given
email. -/
def get_admin_user_by_email (db : DB) (email : String) : Option AdminRec :=
  db.admins.find? (fun a => a.email == email)

/-- `get_subscription_type_by_id`: first `subscription_types` row with the
given primary key. -/
def get_subscription_type_by_id (db : DB) (sub_type_id : Nat) : Option SubTypeRec :=
  db.subscription_types.find? (fun st => st.id == sub_type_id)

/-- `get_blog_post_by_id`: first `blog_posts` row with the given primary
key. -/
def get_blog_post_by_id (db : DB) (post_id : Nat) : Option BlogPostRec :=
  db.blog_posts.find? (fun p => p.id == post_id)

/-- `get_all_blog_posts(db, is_published=None)`: all blog posts, optionally
filtered by publication status. -/
def get_all_blog_posts (db : DB) (is_published : Option Bool) : List BlogPostRec :=
  match is_published with
  | some b => db.blog_posts.filter (fun p => p.is_published == b)
  | none => db.blog_posts

/-- `get_future_plan_by_id`: first `future_plans` row with the given
primary key. -/
def get_future_plan_by_id (db : DB) (plan_id : Nat) : Option FuturePlanRec :=
  db.future_plans.find? (fun p => p.id == plan_id)

/-- `get_all_future_plans(db, is_active=None, category=None)`: all future
plans, with the two conditional `where` clauses of the source (the category
filter is guarded by Python truthiness of the optional string). -/
def get_all_future_plans (db : DB) (is_active : Option Bool)
    (category : Option String) : List FuturePlanRec :=
  let l := db.future_plans
  let l := match is_active with
    | some b => l.filter (fun p => p.is_active == PyValue.bool b)
    | none => l
  match category with
  | some c => if c ≠ "" then l.filter (fun p => p.category == PyValue.str c) else l
  | none => l

/-- `delete_subscription_type`: `db.delete(sub_type); db.commit()`.  The
ORM cascades the delete to the type's periods (`cascade="all,
delete-orphan"`), but `clients.subscription_type_id` and
`payment_transactions.subscription_type_id` are NOT NULL foreign keys
without a delete cascade: if any client or payment transaction still
references the type the commit raises `IntegrityError` and nothing is
removed. -/
def delete_subscription_type (db : DB) (st : SubTypeRec) : Except PyErr DB :=
  if db.clients.any (fun c => c.subscription_type_id == st.id) ||
     db.payment_transactions.any (fun t => t.subscription_type_id == st.id) then
    .error .integrityError
  else
    .ok { db with
      subscription_types := db.subscription_types.filter (fun x => !(x.id == st.id))
      subscription_periods :=
        db.subscription_periods.filter (fun p => !(p.subscription_type_id == st.id)) }

/-- `delete_client`: `db.delete(client); db.commit()`.  The ORM cascades
the delete to the client's social accounts (`cascade="all,
delete-orphan"`), but `payment_transactions.client_id` is a NOT NULL
foreign key without a delete cascade: if the client has payment
transactions the commit raises `IntegrityError` and nothing is removed. -/
def delete_client (db : DB) (c : ClientRec) : Except PyErr DB :=
  if db.payment_transactions.any (fun t => t.client_id == c.id) then
    .error .integrityError
  else
    .ok { db with
      clients := db.clients.filter (fun x => !(x.id == c.id))
      social_accounts := db.social_accounts.filter (fun s => !(s.client_id == c.id)) }

/-- `delete_blog_post`: removes the `blog_posts` row with that primary key. -/
def delete_blog_post (db : DB) (p : BlogPostRec) : DB :=
  { db with blog_posts := db.blog_posts.filter (fun x => !(x.id == p.id)) }

/-- `delete_future_plan`: removes the `future_plans` row with that primary
key. -/
def delete_future_plan (db : DB) (p : FuturePlanRec) : DB :=
  { db with future_plans := db.future_plans.filter (fun x => !(x.id == p.id)) }

/-- Fresh autoincrement primary key for `clients` (the database assigns
`max + 1`). -/
def nextClientId (db : DB) : Nat :=
  db.clients.foldr (fun c m => max c.id m) 0 + 1

/-- `create_client(db, client, hashed_password)`: inserts a new `clients`
row.  `client_db_id` is the `uuid.uuid4()` drawn by the function (explicit
argument here), `purchase_date` and `is_active` come from the column
defaults (`utcnow`, `True`) because the function does not pass them. -/
def create_client (db : DB) (username company_name company_type : String)
    (inn : Option String) (contact_email : String)
    (phone_number : Option String) (subscription_type_id : Nat)
    (hashed_password : BcryptHash) (freshUuid : String) (now : Nat) :
    DB × ClientRec :=
  let c : ClientRec :=
    { id := nextClientId db
      username := username
      hashed_password := hashed_password
      company_name := company_name
      company_type := company_type
      inn := inn
      contact_email := contact_email
      phone_number := phone_number
      client_db_id := freshUuid
      subscription_type_id := subscription_type_id
      purchase_date := now
      renewal_date := none
      is_active := true }
  ({ db with clients := db.clients ++ [c] }, c)

/-- `ClientUpdate` (`app/schemas/smartio_schemas.py`): a pydantic partial
update; `some` marks a field present in `model_dump(exclude_unset=True)`. -/
structure ClientUpdate where
  username : Option String := none
  password : Option String := none
  company_name : Option String := none
  company_type : Option String := none
  inn : Option String := none
  contact_email : Option String := none
  phone_number : Option String := none
  subscription_type_id : Option Nat := none
  purchase_date : Option Nat := none
  renewal_date : Option Nat := none
  is_active : Option Bool := none
deriving DecidableEq, Repr

/-- The `setattr` loop of `update_client` applied to one row: every field
present in the update dict overwrites the row's field; a provided
`password` is hashed first and stored as `hashed_password`. -/
def apply_client_update (c : ClientRec) (u : ClientUpdate) (salt : String) :
    ClientRec :=
  { c with
    username := u.username.getD c.username
    hashed_password :=
      match u.password with
      | some pw => get_password_hash pw salt
      | none => c.hashed_password
    company_name := u.company_name.getD c.company_name
    company_type := u.company_type.getD c.company_type
    inn := match u.inn with | some v => some v | none => c.inn
    contact_email := u.contact_email.getD c.contact_email
    phone_number := match u.phone_number with | some v => some v | none => c.phone_number
    subscription_type_id := u.subscription_type_id.getD c.subscription_type_id
    purchase_date := u.purchase_date.getD c.purchase_date
    renewal_date := match u.renewal_date with | some v => some v | none => c.renewal_date
    is_active := u.is_active.getD c.is_active }

/-- The constraints the database enforces when a rewritten `clients` row
is committed: the NOT NULL foreign key `subscription_type_id →
subscription_types.id`, and the unique constraints on `username`,
`contact_email` and `inn` against every other stored row (multiple NULL
`inn` values are allowed; `client_db_id` is unique too but never written
by the update path). -/
def clientRowIntegrityOk (db : DB) (c1 : ClientRec) : Bool :=
  (get_subscription_type_by_id db c1.subscription_type_id).isSome &&
  !(db.clients.any (fun x => !(x.id == c1.id) &&
      (x.username == c1.username || x.contact_email == c1.contact_email ||
       (c1.inn.isSome && x.inn == c1.inn))))

/-- `update_client(db, client, client_update)`: applies the dynamic
field-setting loop to the row and commits.  The function itself validates
nothing; the commit enforces the table constraints, so a row violating the
subscription-type foreign key or a unique column raises `IntegrityError`
and nothing is persisted.  `salt` is the fresh bcrypt salt used when a
password is provided. -/
def update_client (db : DB) (c : ClientRec) (u : ClientUpdate)
    (salt : String) : Except PyErr (DB × ClientRec) :=
  let c1 := apply_client_update c u salt
  if clientRowIntegrityOk db c1 then
    .ok ({ db with clients := db.clients.map (fun x => if x.id == c.id then c1 else x) }, c1)
  else .error .integrityError

/-! ## Dynamic attribute access (pydantic objects, `create_future_plan`)

A pydantic model instance is embedded as its attribute dictionary; reading
an attribute the schema does not define raises `AttributeError`, which is
how CPython behaves on `plan_data.short_description` when
`FuturePlanCreate` defines no such field. -/

/-- `getattr` on a pydantic object: look the name up in the instance's
attribute dict, `AttributeError` if absent. -/
def getattr (o : List (String × PyValue)) (name : String) :
    Except PyErr PyValue :=
  match o.find? (fun kv => kv.1 == name) with
  | some kv => .ok kv.2
  | Option.none => .error .attributeError

/-- Lift an optional string to a Python attribute value. -/
def optStrVal : Option String → PyValue
  | some s => .str s
  | Option.none => .none

/-- A `FuturePlanCreate` instance: the schema (`FuturePlanBase`) defines
exactly the fields `title`, `description`, `category`, `is_active`. -/
def futurePlanCreate (title : String) (description category : Option String)
    (is_active : Bool) : List (String × PyValue) :=
  [("title", .str title),
   ("description", optStrVal description),
   ("category", optStrVal category),
   ("is_active", .bool is_active)]

/-- Fresh autoincrement primary key for `future_plans`. -/
def nextFuturePlanId (db : DB) : Nat :=
  db.future_plans.foldr (fun p m => max p.id m) 0 + 1

/-- `create_future_plan(db, plan_data)`: builds the ORM row from attribute
reads on `plan_data`, in the source's keyword-argument order, then inserts
it.  The reads of `short_description`, `full_description`, `image_url`,
`video_url` and `target_date` are dynamic attribute accesses on the
pydantic object. -/
def create_future_plan (db : DB) (plan_data : List (String × PyValue)) :
    Except PyErr (DB × FuturePlanRec) := do
  let title ← getattr plan_data "title"
  let short_description ← getattr plan_data "short_description"
  let full_description ← getattr plan_data "full_description"
  let image_url ← getattr plan_data "image_url"
  let video_url ← getattr plan_data "video_url"
  let target_date ← getattr plan_data "target_date"
  let category ← getattr plan_data "category"
  let is_active ← getattr plan_data "is_active"
  let row : FuturePlanRec :=
    { id := nextFuturePlanId db
      title := title
      short_description := short_description
      full_description := full_description
      image_url := image_url
      video_url := video_url
      target_date := target_date
      category := category
      is_active := is_active }
  return ({ db with future_plans := db.future_plans ++ [row] }, row)

/-! ## Python keyword-argument calls

CPython raises `TypeError` when a call passes a keyword argument the
callee's signature does not accept.  Each embedded call site that passes
keyword arguments goes through this check against the callee's parameter
list (the first parameter, `db`, is always bound positionally at the call
sites in question). -/

/-- Accept a keyword-argument list iff every name is a parameter of the
callee; otherwise the call raises `TypeError`. -/
def pyCallKwargsCheck (params : List String) (kwargs : List String) :
    Except PyErr Unit :=
  if kwargs.all (fun kw => params.contains kw) then .ok () else .error .typeError

/-- The parameter list of `get_all_blog_posts(db, is_published=None)`. -/
def get_all_blog_posts_params : List String := ["db", "is_published"]

/-- The parameter list of
`get_all_future_plans(db, is_active=None, category=None)`. -/
def get_all_future_plans_params : List String := ["db", "is_active", "category"]

/-! ## Principal resolution (`app/core/security.py`) -/

/-- The `TokenData` pydantic schema: every field optional, `client_db_id`
typed `Optional[str]`. -/
structure TokenData where
  username : Option String := none
  client_id : Option Nat := none
  client_company_name : Option String := none
  client_db_id : Option String := none
deriving DecidableEq, Repr

/-- Is `c` an ASCII hexadecimal digit? -/
def isHexChar (c : Char) : Bool :=
  (c ≥ '0' && c ≤ '9') || (c ≥ 'a' && c ≤ 'f') || (c ≥ 'A' && c ≤ 'F')

/-- Does `uuid.UUID(s)` succeed?  Checked here for the canonical
8-4-4-4-12 hyphenated hex form; Python accepts a few more spellings, but
which side of this test a string falls on only selects which exception the
`TokenData` construction below raises — never whether one is raised. -/
def pyUuidParses (s : String) : Bool :=
  let cs := s.toList
  cs.length == 36 &&
  cs.enum.all (fun p =>
    if p.1 == 8 || p.1 == 13 || p.1 == 18 || p.1 == 23 then p.2 == '-'
    else isHexChar p.2)

/-- Line 76 of `security.py`:
`TokenData(username=username, client_db_id=uuid.UUID(client_db_id))`.
`uuid.UUID` raises `ValueError` when the claim string does not parse as a
UUID; when it does parse, the resulting `uuid.UUID` instance is passed to
`TokenData.client_db_id`, an `Optional[str]` field that pydantic v2 does
not coerce UUIDs into, so the constructor raises `ValidationError`.  Both
exceptions escape the surrounding `except JWTError` handler, so this
construction never returns normally. -/
def tokenDataConstruct (username client_db_id : String) :
    Except PyErr TokenData :=
  if pyUuidParses client_db_id then .error .validationError
  else .error .valueError

/-- `_get_current_client_from_token(token, db)`: decode the token (any
`JWTError` gives `None`), return `None` unless both the `sub` and
`client_db_id` claims are present, then build the `TokenData` — which
raises out of the function, see `tokenDataConstruct` — and only then load
the client by username and require `is_active`.  `.error` is an uncaught
exception propagating to the caller (a 500 at the HTTP surface). -/
def _get_current_client_from_token (secretKey : String) (now : Nat)
    (token : JwtToken) (db : DB) : Except PyErr (Option ClientRec) :=
  match jwtDecode secretKey now token with
  | Option.none => .ok none
  | some payload =>
    match payload.sub, payload.client_db_id with
    | some username, some client_db_id =>
      match tokenDataConstruct username client_db_id with
      | .error e => .error e
      | .ok _token_data =>
        -- Lines 80-86.  `token_data.username` holds the very `username`
        -- the constructor received; this branch is unreachable because the
        -- construction always raises.
        match get_client_by_username db username with
        | Option.none => .ok none
        | some current_client =>
          if current_client.is_active then .ok (some current_client) else .ok none
    | _, _ => .ok none

/-- `get_current_client_required`: the dependency used by client API
endpoints; 401 with a fixed detail when resolution yields `None`, while an
exception raised by the helper propagates (500). -/
def get_current_client_required (secretKey : String) (now : Nat)
    (token : JwtToken) (db : DB) : Except HandlerErr ClientRec :=
  match _get_current_client_from_token secretKey now token db with
  | .error e => .error (.py e)
  | .ok Option.none =>
    .error (.http { statusCode := 401, detail := "Could not validate credentials" })
  | .ok (some c) => .ok c

/-- `get_current_client_optional`: `None` when no token is supplied,
otherwise the helper's result (including a propagating exception). -/
def get_current_client_optional (secretKey : String) (now : Nat)
    (token : Option JwtToken) (db : DB) : Except PyErr (Option ClientRec) :=
  match token with
  | Option.none => .ok none
  | some t => _get_current_client_from_token secretKey now t db

/-- `_get_current_admin_user_from_token(token, db)`: decode the token,
require the `sub` claim, then load the admin user by username and require
`is_active`.  No role claim is inspected.  Unlike the client path, this
function cannot raise: its `TokenData(username=username)` passes a plain
string to an `Optional[str]` field, which pydantic accepts. -/
def _get_current_admin_user_from_token (secretKey : String) (now : Nat)
    (token : JwtToken) (db : DB) : Option AdminRec :=
  match jwtDecode secretKey now token with
  | Option.none => none
  | some payload =>
    match payload.sub with
    | some username =>
      match get_admin_user_by_username db username with
      | Option.none => none
      | some current_admin =>
        if current_admin.is_active then some current_admin else none
    | Option.none => none

/-- `get_current_admin_user_required`: the dependency used by admin API
endpoints; 401 with a fixed detail when resolution fails. -/
def get_current_admin_user_required (secretKey : String) (now : Nat)
    (token : JwtToken) (db : DB) : Except HttpError AdminRec :=
  match _get_current_admin_user_from_token secretKey now token db with
  | Option.none => .error { statusCode := 401, detail := "Could not validate admin credentials" }
  | some a => .ok a

/-- `get_current_admin_user_optional`. -/
def get_current_admin_user_optional (secretKey : String) (now : Nat)
    (token : Option JwtToken) (db : DB) : Option AdminRec :=
  match token with
  | Option.none => none
  | some t => _get_current_admin_user_from_token secretKey now t db

/-! ## Login and registration handlers (`app/main.py`) -/

/-- The OAuth2 password form of the login endpoints. -/
structure LoginForm where
  username : String
  password : String
deriving DecidableEq, Repr

/-- The `Token` response body returned by the two login endpoints. -/
structure TokenOut where
  access_token : JwtToken
  client_id : Nat
  client_username : String
  client_company_name : String
  client_db_id : String
deriving DecidableEq, Repr

/-- `authenticate_client_user(db, username, password)`: client row by
username, password check against the stored hash.  The `is_active` flag is
not consulted here. -/
def authenticate_client_user (db : DB) (username password : String) :
    Option ClientRec :=
  match get_client_by_username db username with
  | Option.none => none
  | some client_user =>
    if verify_password password client_user.hashed_password
    then some client_user else none

/-- `authenticate_admin_user(db, username, password)`. -/
def authenticate_admin_user (db : DB) (username password : String) :
    Option AdminRec :=
  match get_admin_user_by_username db username with
  | Option.none => none
  | some admin_user =>
    if verify_password password admin_user.hashed_password
    then some admin_user else none

/-- `POST /token` (`login_for_access_token`): authenticate the client, then
issue a token over the claim dict `sub = username, is_admin = False` — note
that no `client_db_id` claim is placed in the token; the response body
(not the token) carries the client's `client_db_id`. -/
def login_for_access_token (form : LoginForm) (secretKey : String)
    (now expiresDelta : Nat) (db : DB) : Except HttpError TokenOut :=
  match authenticate_client_user db form.username form.password with
  | Option.none =>
    .error { statusCode := 401, detail := "Неправильное имя пользователя или пароль" }
  | some client_user =>
    .ok { access_token :=
            create_access_token
              { sub := some client_user.username, is_admin := some false,
                client_db_id := none }
              expiresDelta secretKey now
          client_id := client_user.id
          client_username := client_user.username
          client_company_name := client_user.company_name
          client_db_id := client_user.client_db_id }

/-- `POST /admin/token` (`admin_login_for_access_token`): authenticate the
admin, then issue a token over `sub = username, is_admin = True`; the
response body carries the admin's id and a zero-UUID placeholder. -/
def admin_login_for_access_token (form : LoginForm) (secretKey : String)
    (now expiresDelta : Nat) (db : DB) : Except HttpError TokenOut :=
  match authenticate_admin_user db form.username form.password with
  | Option.none =>
    .error { statusCode := 401, detail := "Неправильное имя пользователя или пароль" }
  | some admin_user =>
    .ok { access_token :=
            create_access_token
              { sub := some admin_user.username, is_admin := some true,
                client_db_id := none }
              expiresDelta secretKey now
          client_id := admin_user.id
          client_username := admin_user.username
          client_company_name := "SMARTIO Admin"
          client_db_id := "00000000-0000-0000-0000-000000000000" }

/-- `ClientCreate` (`app/schemas/smartio_schemas.py`). -/
structure ClientCreate where
  username : String
  company_name : String
  company_type : String
  inn : Option String
  contact_email : String
  phone_number : Option String
  subscription_type_id : Nat
  is_active : Bool := true
  password : String
deriving DecidableEq, Repr

/-- `POST /register` (`register_client`): reject a taken username or email
or an unknown subscription type with 400, otherwise hash the password and
insert the client.  Returns the post-state and the outcome; on an
`HTTPException` the store is returned unchanged (the handler raises before
any insert). -/
def register_client (data : ClientCreate) (salt freshUuid : String)
    (now : Nat) (db : DB) : DB × Except HttpError ClientRec :=
  if (get_client_by_username db data.username).isSome then
    (db, .error { statusCode := 400, detail := "Имя пользователя уже зарегистрировано" })
  else if (get_client_by_email db data.contact_email).isSome then
    (db, .error { statusCode := 400, detail := "Email уже зарегистрирован" })
  else if (get_subscription_type_by_id db data.subscription_type_id).isNone then
    (db, .error { statusCode := 400, detail := "Неверный ID типа подписки" })
  else
    let hashed := get_password_hash data.password salt
    let r := create_client db data.username data.company_name
      data.company_type data.inn data.contact_email data.phone_number
      data.subscription_type_id hashed freshUuid now
    (r.1, .ok r.2)

/-- `POST /api/admin/clients/` (`create_client_by_admin`): same checks as
registration, with admin-flavoured detail strings.  The
`get_current_admin_user_required` dependency has already run. -/
def create_client_by_admin (data : ClientCreate) (salt freshUuid : String)
    (now : Nat) (db : DB) : DB × Except HttpError ClientRec :=
  if (get_client_by_username db data.username).isSome then
    (db, .error { statusCode := 400, detail := "Имя пользователя клиента уже зарегистрировано" })
  else if (get_client_by_email db data.contact_email).isSome then
    (db, .error { statusCode := 400, detail := "Email клиента уже зарегистрирован" })
  else if (get_subscription_type_by_id db data.subscription_type_id).isNone then
    (db, .error { statusCode := 400, detail := "Неверный ID типа подписки" })
  else
    let hashed := get_password_hash data.password salt
    let r := create_client db data.username data.company_name
      data.company_type data.inn data.contact_email data.phone_number
      data.subscription_type_id hashed freshUuid now
    (r.1, .ok r.2)

/-- `PUT /api/admin/clients/{client_id}` (`update_existing_client_api`):
404 when the client does not exist, otherwise `update_client` is applied
directly — the handler checks no updated field itself; a commit-time
`IntegrityError` (e.g. an unknown `subscription_type_id`) propagates
uncaught and leaves the store unchanged. -/
def update_existing_client_api (client_id : Nat) (u : ClientUpdate)
    (salt : String) (db : DB) : DB × Except HandlerErr ClientRec :=
  match get_client_by_id db client_id with
  | Option.none =>
    (db, .error (.http { statusCode := 404, detail := "Клиент не найден" }))
  | some db_client =>
    match update_client db db_client u salt with
    | .error e => (db, .error (.py e))
    | .ok r => (r.1, .ok r.2)

/-! ## Admin GET/DELETE handlers (`app/main.py`) -/

/-- `GET /api/admin/subscription_types/{sub_type_id}`. -/
def get_subscription_type_by_id_api (sub_type_id : Nat) (db : DB) :
    Except HttpError SubTypeRec :=
  match get_subscription_type_by_id db sub_type_id with
  | Option.none => .error { statusCode := 404, detail := "Тип подписки не найден" }
  | some st => .ok st

/-- `DELETE /api/admin/subscription_types/{sub_type_id}`: 404 and no
change when absent; when present, the delete commits and answers 204
unless a foreign key still references the type, in which case the
`IntegrityError` propagates and the store is unchanged. -/
def delete_existing_subscription_type_api (sub_type_id : Nat) (db : DB) :
    DB × Except HandlerErr Nat :=
  match get_subscription_type_by_id db sub_type_id with
  | Option.none =>
    (db, .error (.http { statusCode := 404, detail := "Тип подписки не найден" }))
  | some db_sub_type =>
    match delete_subscription_type db db_sub_type with
    | .error e => (db, .error (.py e))
    | .ok db2 => (db2, .ok 204)

/-- `GET /api/admin/clients/{client_id}`. -/
def get_client_by_id_api (client_id : Nat) (db : DB) :
    Except HttpError ClientRec :=
  match get_client_by_id db client_id with
  | Option.none => .error { statusCode := 404, detail := "Клиент не найден" }
  | some c => .ok c

/-- `DELETE /api/admin/clients/{client_id}`: 404 when absent; otherwise
the delete commits (204) unless the client still has payment transactions,
in which case the `IntegrityError` propagates and the store is unchanged. -/
def delete_existing_client_api (client_id : Nat) (db : DB) :
    DB × Except HandlerErr Nat :=
  match get_client_by_id db client_id with
  | Option.none =>
    (db, .error (.http { statusCode := 404, detail := "Клиент не найден" }))
  | some db_client =>
    match delete_client db db_client with
    | .error e => (db, .error (.py e))
    | .ok db2 => (db2, .ok 204)

/-- `GET /api/admin/blogs/{post_id}`. -/
def get_blog_post_by_id_api (post_id : Nat) (db : DB) :
    Except HttpError BlogPostRec :=
  match get_blog_post_by_id db post_id with
  | Option.none => .error { statusCode := 404, detail := "Статья блога не найдена" }
  | some p => .ok p

/-- `DELETE /api/admin/blogs/{post_id}`. -/
def delete_existing_blog_post_api (post_id : Nat) (db : DB) :
    DB × Except HttpError Nat :=
  match get_blog_post_by_id db post_id with
  | Option.none => (db, .error { statusCode := 404, detail := "Статья блога не найдена" })
  | some db_post => (delete_blog_post db db_post, .ok 204)

/-- `GET /api/admin/future_plans/{plan_id}`. -/
def get_future_plan_by_id_api (plan_id : Nat) (db : DB) :
    Except HttpError FuturePlanRec :=
  match get_future_plan_by_id db plan_id with
  | Option.none => .error { statusCode := 404, detail := "Будущий план не найден" }
  | some p => .ok p

/-- `DELETE /api/admin/future_plans/{plan_id}`. -/
def delete_existing_future_plan_api (plan_id : Nat) (db : DB) :
    DB × Except HttpError Nat :=
  match get_future_plan_by_id db plan_id with
  | Option.none => (db, .error { statusCode := 404, detail := "Будущий план не найден" })
  | some db_plan => (delete_future_plan db db_plan, .ok 204)

/-! ## Future plan creation and listing, detail pages (`app/main.py`) -/

/-- `POST /api/admin/future_plans/` (`create_new_future_plan_api`): builds
a `FuturePlanCreate` from the form fields, then calls
`create_future_plan`; an uncaught Python error leaves the store
unchanged (it is raised before any insert). -/
def create_new_future_plan_api (title : String)
    (description category : Option String) (is_active : Bool) (db : DB) :
    DB × Except PyErr FuturePlanRec :=
  let plan_data := futurePlanCreate title description category is_active
  match create_future_plan db plan_data with
  | .error e => (db, .error e)
  | .ok r => (r.1, .ok r.2)

/-- `GET /api/admin/future_plans/` (`get_all_future_plans_api`): forwards
`is_active` and `limit` as keyword arguments to `get_all_future_plans`,
whose signature is `(db, is_active=None, category=None)`. -/
def get_all_future_plans_api (is_active : Option Bool) (limit : Option Nat)
    (db : DB) : Except HandlerErr (List FuturePlanRec) :=
  match pyCallKwargsCheck get_all_future_plans_params ["is_active", "limit"] with
  | .error e => .error (.py e)
  | .ok _ => .ok (get_all_future_plans db is_active none)

/-- A rendered Jinja2 template response. -/
structure RenderedPage where
  template : String
  title : String
deriving DecidableEq, Repr

/-- `GET /blogs/{post_id}` (`blog_post_detail_page`): 404 when the post is
missing or unpublished, then a sidebar query
`get_all_blog_posts(db, is_published=True, limit=5)` against a callee whose
signature is `(db, is_published=None)`. -/
def blog_post_detail_page (post_id : Nat) (db : DB) :
    Except HandlerErr RenderedPage :=
  match get_blog_post_by_id db post_id with
  | Option.none =>
    .error (.http { statusCode := 404, detail := "Blog post not found or not published" })
  | some blog_post =>
    if !blog_post.is_published then
      .error (.http { statusCode := 404, detail := "Blog post not found or not published" })
    else
      match pyCallKwargsCheck get_all_blog_posts_params ["is_published", "limit"] with
      | .error e => .error (.py e)
      | .ok _ => .ok { template := "blog_detail.html", title := blog_post.title }

/-- `GET /future-plans/{plan_id}` (`future_plan_detail_page`): 404 when the
plan is missing or inactive, then a sidebar query
`get_all_future_plans(db, is_active=True, limit=5)` against a callee whose
signature is `(db, is_active=None, category=None)`. -/
def future_plan_detail_page (plan_id : Nat) (db : DB) :
    Except HandlerErr RenderedPage :=
  match get_future_plan_by_id db plan_id with
  | Option.none =>
    .error (.http { statusCode := 404, detail := "Future plan not found or not active" })
  | some future_plan =>
    if !(pyTruthy future_plan.is_active) then
      .error (.http { statusCode := 404, detail := "Future plan not found or not active" })
    else
      match pyCallKwargsCheck get_all_future_plans_params ["is_active", "limit"] with
      | .error e => .error (.py e)
      | .ok _ =>
        .ok { template := "future_plan_detail.html",
              title := match future_plan.title with | .str s => s | _ => "" }

/-- An active stored client for the C3 witness. -/
def c3w_client : ClientRec :=
  { id := 1, username := "carol", hashed_password := get_password_hash "pw" "s",
    company_name := "Co", company_type := "ИП", inn := none,
    contact_email := "carol@co.example", phone_number := none,
    client_db_id := "33333333-3333-3333-3333-333333333333",
    subscription_type_id := 1, purchase_date := 0, renewal_date := none,
    is_active := true }

/-- The C3 witness database. -/
def c3w_db : DB :=
  { clients := [c3w_client], admins := [], subscription_types := [],
    subscription_periods := [], payment_transactions := [],
    social_accounts := [], blog_posts := [], future_plans := [] }

/-- A valid, unexpired token carrying both client-path claims for the
stored active client `carol` — the best-formed client token possible. -/
def c3w_tok : JwtToken :=
  .signed { sub := some "carol", is_admin := some false,
            client_db_id := some "33333333-3333-3333-3333-333333333333",
            exp := 50 } "K"

/-- The same token shape with a subject no stored principal has. -/
def c3w_tok_ghost : JwtToken :=
  .signed { sub := some "ghost", is_admin := some false,
            client_db_id := some "33333333-3333-3333-3333-333333333333",
            exp := 50 } "K"

/-- Both claims present, but the `client_db_id` string is not a UUID. -/
def c3w_tok_baduuid : JwtToken :=
  .signed { sub := some "ghost", is_admin := some false,
            client_db_id := some "not-a-uuid", exp := 50 } "K"

/-- A subscription type for the C1 scenario. -/
def c1_sub_type : SubTypeRec :=
  { id := 1, name := "Базовая", options := [], price := 0, discount := 0,
    is_active := true }

/-- An active client whose username collides with an admin's. -/
def c1_client : ClientRec :=
  { id := 1, username := "boss",
    hashed_password := get_password_hash "clientpw" "salt1",
    company_name := "Acme", company_type := "ООО", inn := none,
    contact_email := "boss@acme.example", phone_number := none,
    client_db_id := "11111111-1111-1111-1111-111111111111",
    subscription_type_id := 1, purchase_date := 0, renewal_date := none,
    is_active := true }

/-- An active admin user with the same username as the client. -/
def c1_admin : AdminRec :=
  { id := 1, username := "boss",
    hashed_password := get_password_hash "adminpw" "salt2",
    email := "boss@smartio.example", is_active := true, is_superadmin := true }

/-- The C1 database state. -/
def c1_db : DB :=
  { clients := [c1_client], admins := [c1_admin],
    subscription_types := [c1_sub_type], subscription_periods := [],
    payment_transactions := [], social_accounts := [],
    blog_posts := [], future_plans := [] }

/-- The token `POST /token` issues for the client `boss`: claims
`sub = "boss", is_admin = False, exp = now + ttl` and no `client_db_id`. -/
def c1_client_token : JwtToken :=
  .signed { sub := some "boss", is_admin := some false, client_db_id := none,
            exp := 1130 } "SECRET"

/-- A stored client for the C5 witness. -/
def c5w_client : ClientRec :=
  { id := 1, username := "alice", hashed_password := get_password_hash "pw" "s",
    company_name := "Co", company_type := "ИП", inn := none,
    contact_email := "alice@co.example", phone_number := none,
    client_db_id := "22222222-2222-2222-2222-222222222222",
    subscription_type_id := 1, purchase_date := 0, renewal_date := none,
    is_active := true }

/-- The C5 witness database. -/
def c5w_db : DB :=
  { clients := [c5w_client], admins := [],
    subscription_types :=
      [{ id := 1, name := "S", options := [], price := 0, discount := 0,
         is_active := true }],
    subscription_periods := [], payment_transactions := [],
    social_accounts := [], blog_posts := [], future_plans := [] }

/-- A registration request reusing the stored client's username. -/
def c5w_data : ClientCreate :=
  { username := "alice", company_name := "Other", company_type := "ООО",
    inn := none, contact_email := "fresh@co.example", phone_number := none,
    subscription_type_id := 1, password := "pw2" }

/-- A subscription type for the C6 witness. -/
def c6w_st : SubTypeRec :=
  { id := 1, name := "S", options := [], price := 0, discount := 0,
    is_active := true }

/-- A client for the C6 witness. -/
def c6w_client : ClientRec :=
  { id := 1, username := "dave", hashed_password := get_password_hash "pw" "s",
    company_name := "Co", company_type := "Другое", inn := none,
    contact_email := "dave@co.example", phone_number := none,
    client_db_id := "44444444-4444-4444-4444-444444444444",
    subscription_type_id := 1, purchase_date := 0, renewal_date := none,
    is_active := true }

/-- A blog post for the C6 witness. -/
def c6w_post : BlogPostRec :=
  { id := 1, title := "Post", short_description := none, content := "body",
    image_url := none, video_url := none, author_id := 1, is_published := true }

/-- A future plan for the C6 witness. -/
def c6w_plan : FuturePlanRec :=
  { id := 1, title := .str "Plan", short_description := .none,
    full_description := .none, image_url := .none, video_url := .none,
    target_date := .none, category := .none, is_active := .bool true }

/-- A second, unreferenced subscription type for the C6 witness. -/
def c6w_st2 : SubTypeRec :=
  { id := 2, name := "S2", options := [], price := 0, discount := 0,
    is_active := true }

/-- The C6 database: client `dave` references subscription type 1, so
deleting type 1 violates the foreign key, while type 2 is unreferenced and
deletable; there are no payment transactions, so `dave` is deletable. -/
def c6w_db : DB :=
  { clients := [c6w_client], admins := [],
    subscription_types := [c6w_st, c6w_st2],
    subscription_periods := [], payment_transactions := [],
    social_accounts := [], blog_posts := [c6w_post],
    future_plans := [c6w_plan] }

/-- The referential invariant of the data model: every stored client's
`subscription_type_id` names an existing subscription type. -/
def clientsRefValid (db : DB) : Prop :=
  ∀ c ∈ db.clients,
    (get_subscription_type_by_id db c.subscription_type_id).isSome = true

instance decidableClientsRefValid (db : DB) : Decidable (clientsRefValid db) :=
  inferInstanceAs (Decidable (∀ c ∈ db.clients,
    (get_subscription_type_by_id db c.subscription_type_id).isSome = true))

/-- The only subscription type in the C8 scenario. -/
def c8_sub_type : SubTypeRec :=
  { id := 1, name := "S", options := [], price := 0, discount := 0,
    is_active := true }

/-- A client referencing the existing subscription type 1. -/
def c8_client : ClientRec :=
  { id := 1, username := "erin", hashed_password := get_password_hash "pw" "s",
    company_name := "Co", company_type := "ИП", inn := none,
    contact_email := "erin@co.example", phone_number := none,
    client_db_id := "55555555-5555-5555-5555-555555555555",
    subscription_type_id := 1, purchase_date := 0, renewal_date := none,
    is_active := true }

/-- The C8 database state, satisfying the referential invariant. -/
def c8_db : DB :=
  { clients := [c8_client], admins := [], subscription_types := [c8_sub_type],
    subscription_periods := [], payment_transactions := [],
    social_accounts := [], blog_posts := [], future_plans := [] }

/-- A published blog post for the C10 witness. -/
def c10w_post : BlogPostRec :=
  { id := 1, title := "T", short_description := none, content := "body",
    image_url := none, video_url := none, author_id := 1, is_published := true }

/-- An active future plan for the C10 witness. -/
def c10w_plan : FuturePlanRec :=
  { id := 1, title := .str "P", short_description := .none,
    full_description := .none, image_url := .none, video_url := .none,
    target_date := .none, category := .none, is_active := .bool true }

/-- The C10 witness database. -/
def c10w_db : DB :=
  { clients := [], admins := [], subscription_types := [],
    subscription_periods := [], payment_transactions := [],
    social_accounts := [], blog_posts := [c10w_post],
    future_plans := [c10w_plan] }

/-! ## Shared helper lemmas -/

/-- Filtering away everything satisfying `p` leaves nothing for `find? p`. -/
theorem find?_filter_not {α : Type} (p : α → Bool) (l : List α) :
    (l.filter (fun a => !(p a))).find? p = none := by
  induction l with
  | nil => rfl
  | cons a l ih =>
    by_cases h : p a
    · simp [List.filter_cons, h, ih]
    · simp [List.filter_cons, h, ih]

/-- An option that is not `isSome` is `none`. -/
theorem isSome_false_eq_none {α : Type} {o : Option α} (h : o.isSome = false) :
    o = none := by
  cases o <;> simp_all

/-- Replacing the `clients` table does not change subscription-type
lookups. -/
theorem get_sub_type_clients_irrel (db : DB) (l : List ClientRec) (s : Nat) :
    get_subscription_type_by_id { db with clients := l } s =
      get_subscription_type_by_id db s := rfl

/-! ## Claim theorems -/

/-- Claim C2: a token whose `exp` claim lies in the past is rejected by
both resolution paths — they return `none` and the required dependencies
answer 401 — whatever key the token was signed with, including the server's
own secret key. -/
theorem c2_expired_token_rejected (secretKey sig : String) (now : Nat)
    (p : Payload) (db : DB) (hexp : p.exp < now) :
    _get_current_client_from_token secretKey now (.signed p sig) db = .ok none ∧
    _get_current_admin_user_from_token secretKey now (.signed p sig) db = none ∧
    get_current_client_required secretKey now (.signed p sig) db =
      .error (.http { statusCode := 401, detail := "Could not validate credentials" }) ∧
    get_current_admin_user_required secretKey now (.signed p sig) db =
      .error { statusCode := 401, detail := "Could not validate admin credentials" } := by
  have hdec : jwtDecode secretKey now (.signed p sig) = none := by
    unfold jwtDecode
    by_cases h : sig == secretKey
    · simp [h, hexp]
    · simp [h]
  refine ⟨?_, ?_, ?_, ?_⟩ <;>
    simp [_get_current_client_from_token, _get_current_admin_user_from_token,
      get_current_client_required, get_current_admin_user_required, hdec]

/-- Witness for C2 at a concrete expired token signed with the correct
secret key. -/
theorem c2_expired_token_rejected_witness :
    _get_current_client_from_token "SECRET" 10
      (.signed { sub := some "u", is_admin := some false, client_db_id := none, exp := 5 }
        "SECRET")
      emptyDB = .ok none ∧
    _get_current_admin_user_from_token "SECRET" 10
      (.signed { sub := some "u", is_admin := some false, client_db_id := none, exp := 5 }
        "SECRET")
      emptyDB = none ∧
    get_current_client_required "SECRET" 10
      (.signed { sub := some "u", is_admin := some false, client_db_id := none, exp := 5 }
        "SECRET")
      emptyDB =
      .error (.http { statusCode := 401, detail := "Could not validate credentials" }) ∧
    get_current_admin_user_required "SECRET" 10
      (.signed { sub := some "u", is_admin := some false, client_db_id := none, exp := 5 }
        "SECRET")
      emptyDB =
      .error { statusCode := 401, detail := "Could not validate admin credentials" } :=
  c2_expired_token_rejected "SECRET" "SECRET" 10
    { sub := some "u", is_admin := some false, client_db_id := none, exp := 5 }
    emptyDB
    (by decide)

/-- Claim C3 (code bug, evaluated): the claim — like the helper's own
docstring, which promises `Client` or `None` without raising — says an
unknown or inactive subject yields `None` and the required dependency
answers 401.  The code instead executes `TokenData(username=...,
client_db_id=uuid.UUID(...))` (security.py line 76) on every decodable
token carrying both claims, inside a `try` that catches only `JWTError`:
pydantic v2 rejects the `uuid.UUID` instance for the `Optional[str]` field
(`ValidationError`), and a malformed claim string makes `uuid.UUID` raise
`ValueError` first.  So the claim's unknown-subject token is answered with
an uncaught exception (500), not `None`/401 — and even the stored active
client's ideal token raises, so the client path never resolves anyone.
The admin path, which builds `TokenData` from the username string alone,
is unaffected. -/
theorem c3_client_path_raises_uncaught :
    _get_current_client_from_token "K" 10 c3w_tok_ghost c3w_db =
      .error .validationError ∧
    get_current_client_required "K" 10 c3w_tok_ghost c3w_db =
      .error (.py .validationError) ∧
    _get_current_client_from_token "K" 10 c3w_tok c3w_db =
      .error .validationError ∧
    _get_current_client_from_token "K" 10 c3w_tok_baduuid c3w_db =
      .error .valueError :=
  ⟨rfl, rfl, rfl, rfl⟩

/-- Claim C4: whatever makes a token fail — garbage the decoder cannot
parse, a signature under the wrong key, an expired `exp` claim, or a valid
fresh token missing the required `sub` claim — the required dependencies
answer the very same 401 with the path's single fixed detail string. -/
theorem c4_uniform_401 (secretKey sig : String) (now : Nat)
    (p pexp pnosub : Payload) (db : DB)
    (hsig : sig ≠ secretKey)
    (hexp : pexp.exp < now)
    (hnosub : pnosub.sub = none)
    (hfresh : ¬ pnosub.exp < now) :
    (get_current_client_required secretKey now .malformed db =
       .error (.http { statusCode := 401, detail := "Could not validate credentials" })) ∧
    (get_current_client_required secretKey now (.signed p sig) db =
       .error (.http { statusCode := 401, detail := "Could not validate credentials" })) ∧
    (get_current_client_required secretKey now (.signed pexp secretKey) db =
       .error (.http { statusCode := 401, detail := "Could not validate credentials" })) ∧
    (get_current_client_required secretKey now (.signed pnosub secretKey) db =
       .error (.http { statusCode := 401, detail := "Could not validate credentials" })) ∧
    (get_current_admin_user_required secretKey now .malformed db =
       .error { statusCode := 401, detail := "Could not validate admin credentials" }) ∧
    (get_current_admin_user_required secretKey now (.signed p sig) db =
       .error { statusCode := 401, detail := "Could not validate admin credentials" }) ∧
    (get_current_admin_user_required secretKey now (.signed pexp secretKey) db =
       .error { statusCode := 401, detail := "Could not validate admin credentials" }) ∧
    (get_current_admin_user_required secretKey now (.signed pnosub secretKey) db =
       .error { statusCode := 401, detail := "Could not validate admin credentials" }) := by
  refine ⟨?_, ?_, ?_, ?_, ?_, ?_, ?_, ?_⟩ <;>
    simp [get_current_client_required, get_current_admin_user_required,
      _get_current_client_from_token, _get_current_admin_user_from_token,
      jwtDecode, hsig, hexp, hnosub, hfresh]

/-- Witness for C4 at concrete tokens exhibiting each failure cause. -/
theorem c4_uniform_401_witness :
    get_current_client_required "SECRET" 10 .malformed
      emptyDB =
      .error (.http { statusCode := 401, detail := "Could not validate credentials" }) ∧
    get_current_admin_user_required "SECRET" 10
      (.signed { sub := some "u", is_admin := some true, client_db_id := none, exp := 99 }
        "WRONG")
      emptyDB =
      .error { statusCode := 401, detail := "Could not validate admin credentials" } :=
  by
  have h := c4_uniform_401 "SECRET" "WRONG" 10
    { sub := some "u", is_admin := some true, client_db_id := none, exp := 99 }
    { sub := some "u", is_admin := some true, client_db_id := none, exp := 5 }
    { sub := none, is_admin := none, client_db_id := none, exp := 99 }
    emptyDB
    (by decide) (by decide) rfl (by decide)
  exact ⟨h.1, h.2.2.2.2.2.1⟩

/-! ## C1: concrete state demonstrating the token/claim mismatch -/

/-- Claim C1 (code bug, evaluated): the token issued by the client login
for the client `boss` (1) fails the client resolution path — which demands
a `client_db_id` claim the login never issues — so the client cannot
authenticate with their own fresh token, and (2) is accepted by the admin
resolution path — which checks no role claim — resolving to the admin that
happens to share the username.  Both contradict the claim that a token for
principal P resolves to P and only under P's role. -/
theorem c1_client_token_misresolved :
    login_for_access_token { username := "boss", password := "clientpw" }
        "SECRET" 1100 30 c1_db =
      .ok { access_token := c1_client_token, client_id := 1,
            client_username := "boss", client_company_name := "Acme",
            client_db_id := "11111111-1111-1111-1111-111111111111" } ∧
    _get_current_client_from_token "SECRET" 1100 c1_client_token c1_db = .ok none ∧
    get_current_client_required "SECRET" 1100 c1_client_token c1_db =
      .error (.http { statusCode := 401, detail := "Could not validate credentials" }) ∧
    _get_current_admin_user_from_token "SECRET" 1100 c1_client_token c1_db =
      some c1_admin ∧
    get_current_admin_user_required "SECRET" 1100 c1_client_token c1_db =
      .ok c1_admin := by
  refine ⟨rfl, rfl, rfl, rfl, rfl⟩

/-! ## C5: registration duplicate rejection -/

/-- Claim C5: `POST /register` leaves the client table untouched and
answers 400 whenever the username or the contact email is already taken,
and a client is created only when both are fresh and the referenced
subscription type exists. -/
theorem c5_register_duplicate_rejected (db : DB) (data : ClientCreate)
    (salt freshUuid : String) (now : Nat) :
    (((get_client_by_username db data.username).isSome = true ∨
      (get_client_by_email db data.contact_email).isSome = true) →
      (register_client data salt freshUuid now db).1 = db ∧
      ∃ d, (register_client data salt freshUuid now db).2 =
        .error { statusCode := 400, detail := d }) ∧
    (∀ db2 c, register_client data salt freshUuid now db = (db2, .ok c) →
      get_client_by_username db data.username = none ∧
      get_client_by_email db data.contact_email = none ∧
      (get_subscription_type_by_id db data.subscription_type_id).isSome = true) := by
  constructor
  · intro hdup
    by_cases h1 : (get_client_by_username db data.username).isSome = true
    · exact ⟨by simp [register_client, h1],
        ⟨"Имя пользователя уже зарегистрировано", by simp [register_client, h1]⟩⟩
    · have h2 : (get_client_by_email db data.contact_email).isSome = true := by
        rcases hdup with h | h
        · exact absurd h h1
        · exact h
      exact ⟨by simp [register_client, h1, h2],
        ⟨"Email уже зарегистрирован", by simp [register_client, h1, h2]⟩⟩
  · intro db2 c h
    by_cases h1 : (get_client_by_username db data.username).isSome = true
    · simp [register_client, h1] at h
    · by_cases h2 : (get_client_by_email db data.contact_email).isSome = true
      · simp [register_client, h1, h2] at h
      · by_cases h3 : (get_subscription_type_by_id db data.subscription_type_id).isNone = true
        · simp [register_client, h1, h2, h3] at h
        · refine ⟨isSome_false_eq_none (by simpa using h1),
            isSome_false_eq_none (by simpa using h2), ?_⟩
          cases hopt : get_subscription_type_by_id db data.subscription_type_id with
          | none => rw [hopt] at h3; simp at h3
          | some st => rfl

/-- Witness for C5: registering a duplicate username leaves the store
unchanged. -/
theorem c5_register_duplicate_rejected_witness :
    (register_client c5w_data "s" "u" 0 c5w_db).1 = c5w_db :=
  ((c5_register_duplicate_rejected c5w_db c5w_data "s" "u" 0).1 (Or.inl rfl)).1

/-! ## C6: delete endpoint semantics -/

/-- Counterexample to claim C6 as stated: subscription type 1 exists in
`c6w_db` but is referenced by the stored client, so
`DELETE /api/admin/subscription_types/1` does not answer 204 and remove
the row — the commit violates the NOT NULL foreign key
`clients.subscription_type_id` and the uncaught `IntegrityError` surfaces
with the store unchanged. -/
theorem c6_referenced_delete_not_204 :
    get_subscription_type_by_id c6w_db 1 = some c6w_st ∧
    delete_existing_subscription_type_api 1 c6w_db =
      (c6w_db, .error (.py .integrityError)) :=
  ⟨rfl, rfl⟩

/-- Claim C6 as amended: each admin DELETE endpoint answers 404 and leaves
the store unchanged when the id is absent; when the id is present and no
stored row still references it — no client or payment transaction for a
subscription type, no payment transaction for a client — it answers 204,
removes the row, and the corresponding GET subsequently answers 404.  Blog
posts and future plans are never referenced, so their deletes always
follow the 404/204 pattern.  (A still-referenced subscription type or
client instead raises `IntegrityError`, as the counterexample shows.) -/
theorem c6_delete_404_204_unreferenced (db : DB) (rid : Nat) :
    ((get_subscription_type_by_id db rid = none →
        delete_existing_subscription_type_api rid db =
          (db, .error (.http { statusCode := 404, detail := "Тип подписки не найден" }))) ∧
     (∀ st, get_subscription_type_by_id db rid = some st →
        db.clients.any (fun c => c.subscription_type_id == st.id) = false →
        db.payment_transactions.any (fun t => t.subscription_type_id == st.id) = false →
        (delete_existing_subscription_type_api rid db).2 = .ok 204 ∧
        get_subscription_type_by_id_api rid
            (delete_existing_subscription_type_api rid db).1 =
          .error { statusCode := 404, detail := "Тип подписки не найден" })) ∧
    ((get_client_by_id db rid = none →
        delete_existing_client_api rid db =
          (db, .error (.http { statusCode := 404, detail := "Клиент не найден" }))) ∧
     (∀ c, get_client_by_id db rid = some c →
        db.payment_transactions.any (fun t => t.client_id == c.id) = false →
        (delete_existing_client_api rid db).2 = .ok 204 ∧
        get_client_by_id_api rid (delete_existing_client_api rid db).1 =
          .error { statusCode := 404, detail := "Клиент не найден" })) ∧
    ((get_blog_post_by_id db rid = none →
        delete_existing_blog_post_api rid db =
          (db, .error { statusCode := 404, detail := "Статья блога не найдена" })) ∧
     (∀ p, get_blog_post_by_id db rid = some p →
        (delete_existing_blog_post_api rid db).2 = .ok 204 ∧
        get_blog_post_by_id_api rid (delete_existing_blog_post_api rid db).1 =
          .error { statusCode := 404, detail := "Статья блога не найдена" })) ∧
    ((get_future_plan_by_id db rid = none →
        delete_existing_future_plan_api rid db =
          (db, .error { statusCode := 404, detail := "Будущий план не найден" })) ∧
     (∀ p, get_future_plan_by_id db rid = some p →
        (delete_existing_future_plan_api rid db).2 = .ok 204 ∧
        get_future_plan_by_id_api rid (delete_existing_future_plan_api rid db).1 =
          .error { statusCode := 404, detail := "Будущий план не найден" })) := by
  refine ⟨⟨?_, ?_⟩, ⟨?_, ?_⟩, ⟨?_, ?_⟩, ⟨?_, ?_⟩⟩
  · intro h; simp [delete_existing_subscription_type_api, h]
  · intro st h ha hb
    have h' : db.subscription_types.find? (fun x => x.id == rid) = some st := h
    have hid : st.id = rid := by simpa using List.find?_some h'
    have hfind : ((db.subscription_types.filter fun x => !(x.id == st.id)).find?
        (fun x => x.id == rid)) = none := by
      rw [← hid]
      exact @find?_filter_not SubTypeRec (fun x => x.id == st.id) db.subscription_types
    refine ⟨?_, ?_⟩
    · simp [delete_existing_subscription_type_api, h', get_subscription_type_by_id,
        delete_subscription_type, ha, hb]
    · simp [delete_existing_subscription_type_api, h', get_subscription_type_by_id_api,
        delete_subscription_type, get_subscription_type_by_id, ha, hb, hfind]
  · intro h; simp [delete_existing_client_api, h]
  · intro c h ha
    have h' : db.clients.find? (fun x => x.id == rid) = some c := h
    have hid : c.id = rid := by simpa using List.find?_some h'
    have hfind : ((db.clients.filter fun x => !(x.id == c.id)).find?
        (fun x => x.id == rid)) = none := by
      rw [← hid]
      exact @find?_filter_not ClientRec (fun x => x.id == c.id) db.clients
    refine ⟨?_, ?_⟩
    · simp [delete_existing_client_api, h', get_client_by_id, delete_client, ha]
    · simp [delete_existing_client_api, h', get_client_by_id_api,
        delete_client, get_client_by_id, ha, hfind]
  · intro h; simp [delete_existing_blog_post_api, h]
  · intro p h
    have h' : db.blog_posts.find? (fun x => x.id == rid) = some p := h
    have hid : p.id = rid := by simpa using List.find?_some h'
    have hfind : ((db.blog_posts.filter fun x => !(x.id == p.id)).find?
        (fun x => x.id == rid)) = none := by
      rw [← hid]
      exact @find?_filter_not BlogPostRec (fun x => x.id == p.id) db.blog_posts
    refine ⟨by simp [delete_existing_blog_post_api, h', get_blog_post_by_id], ?_⟩
    simp [delete_existing_blog_post_api, h', get_blog_post_by_id_api,
      delete_blog_post, get_blog_post_by_id, hfind]
  · intro h; simp [delete_existing_future_plan_api, h]
  · intro p h
    have h' : db.future_plans.find? (fun x => x.id == rid) = some p := h
    have hid : p.id = rid := by simpa using List.find?_some h'
    have hfind : ((db.future_plans.filter fun x => !(x.id == p.id)).find?
        (fun x => x.id == rid)) = none := by
      rw [← hid]
      exact @find?_filter_not FuturePlanRec (fun x => x.id == p.id) db.future_plans
    refine ⟨by simp [delete_existing_future_plan_api, h', get_future_plan_by_id], ?_⟩
    simp [delete_existing_future_plan_api, h', get_future_plan_by_id_api,
      delete_future_plan, get_future_plan_by_id, hfind]

/-- Witness for the amended C6: deleting the unreferenced subscription
type 2, the transaction-free client, the blog post and the future plan
each answers 204 with the row gone; deleting an absent id answers 404
unchanged. -/
theorem c6_delete_404_204_unreferenced_witness :
    ((delete_existing_subscription_type_api 2 c6w_db).2 = .ok 204 ∧
      get_subscription_type_by_id_api 2
          (delete_existing_subscription_type_api 2 c6w_db).1 =
        .error { statusCode := 404, detail := "Тип подписки не найден" }) ∧
    ((delete_existing_client_api 1 c6w_db).2 = .ok 204 ∧
      get_client_by_id_api 1 (delete_existing_client_api 1 c6w_db).1 =
        .error { statusCode := 404, detail := "Клиент не найден" }) ∧
    ((delete_existing_blog_post_api 1 c6w_db).2 = .ok 204 ∧
      get_blog_post_by_id_api 1 (delete_existing_blog_post_api 1 c6w_db).1 =
        .error { statusCode := 404, detail := "Статья блога не найдена" }) ∧
    ((delete_existing_future_plan_api 1 c6w_db).2 = .ok 204 ∧
      get_future_plan_by_id_api 1 (delete_existing_future_plan_api 1 c6w_db).1 =
        .error { statusCode := 404, detail := "Будущий план не найден" }) ∧
    delete_existing_subscription_type_api 3 c6w_db =
      (c6w_db, .error (.http { statusCode := 404, detail := "Тип подписки не найден" })) :=
  ⟨(c6_delete_404_204_unreferenced c6w_db 2).1.2 c6w_st2 rfl rfl rfl,
   (c6_delete_404_204_unreferenced c6w_db 1).2.1.2 c6w_client rfl rfl,
   (c6_delete_404_204_unreferenced c6w_db 1).2.2.1.2 c6w_post rfl,
   (c6_delete_404_204_unreferenced c6w_db 1).2.2.2.2 c6w_plan rfl,
   (c6_delete_404_204_unreferenced c6w_db 3).1.1 rfl⟩

/-! ## C7: salted password hashing -/

/-- Claim C7: hashing the same password under two different salts yields
two different stored hashes, both of which verify against the original
password, while any other password is rejected. -/
theorem c7_salted_hash_roundtrip (p q s1 s2 : String) (hs : s1 ≠ s2)
    (hq : q ≠ p) :
    get_password_hash p s1 ≠ get_password_hash p s2 ∧
    verify_password p (get_password_hash p s1) = true ∧
    verify_password p (get_password_hash p s2) = true ∧
    verify_password q (get_password_hash p s1) = false := by
  refine ⟨?_, ?_, ?_, ?_⟩
  · intro h
    exact hs (congrArg BcryptHash.salt h)
  · simp [verify_password, get_password_hash]
  · simp [verify_password, get_password_hash]
  · simp [verify_password, get_password_hash]
    exact fun h => hq h.symm

/-- Witness for C7 at a concrete password, rival password and salt pair. -/
theorem c7_salted_hash_roundtrip_witness :
    get_password_hash "pw" "saltA" ≠ get_password_hash "pw" "saltB" ∧
    verify_password "pw" (get_password_hash "pw" "saltA") = true ∧
    verify_password "pw" (get_password_hash "pw" "saltB") = true ∧
    verify_password "other" (get_password_hash "pw" "saltA") = false :=
  c7_salted_hash_roundtrip "pw" "other" "saltA" "saltB" (by decide) (by decide)

/-! ## C8: the client-to-subscription-type reference invariant -/

/-- Appending a client whose subscription type exists preserves the
invariant. -/
theorem clientsRefValid_append (db : DB) (c : ClientRec)
    (hv : clientsRefValid db)
    (hc : (get_subscription_type_by_id db c.subscription_type_id).isSome = true) :
    clientsRefValid { db with clients := db.clients ++ [c] } := by
  intro x hx
  rw [get_sub_type_clients_irrel]
  rcases List.mem_append.mp hx with hx | hx
  · exact hv x hx
  · have hxc : x = c := List.mem_singleton.mp hx
    subst hxc
    exact hc

/-- Rewriting one client row to a replacement whose subscription type
exists preserves the invariant. -/
theorem clientsRefValid_map_update (db : DB) (c0 c1 : ClientRec)
    (hv : clientsRefValid db)
    (hc1 : (get_subscription_type_by_id db c1.subscription_type_id).isSome = true) :
    clientsRefValid
      { db with clients := db.clients.map (fun x => if x.id == c0.id then c1 else x) } := by
  intro x hx
  rw [get_sub_type_clients_irrel]
  rcases List.mem_map.mp hx with ⟨y, hy, hxy⟩
  by_cases hid : (y.id == c0.id) = true
  · rw [← hxy]
    simp only [hid, if_true]
    exact hc1
  · rw [← hxy]
    simp only [hid, if_false, Bool.false_eq_true]
    exact hv y hy

/-- A committed client row satisfies the subscription-type foreign key. -/
theorem clientRowIntegrityOk_fk {db : DB} {c1 : ClientRec}
    (h : clientRowIntegrityOk db c1 = true) :
    (get_subscription_type_by_id db c1.subscription_type_id).isSome = true := by
  unfold clientRowIntegrityOk at h
  simp only [Bool.and_eq_true] at h
  exact h.1

/-- Claim C8: every HTTP-surface path that writes a client — registration,
admin client creation, and the admin client update — preserves the
invariant that each stored client references an existing subscription
type.  The creation paths enforce it themselves, rejecting unknown
subscription type ids with 400 before inserting; the update path checks
nothing, but its commit enforces the NOT NULL foreign key, so an unknown
id raises `IntegrityError` (an uncaught 500) and persists nothing — either
way no dangling reference ever reaches the store. -/
theorem c8_http_surface_preserves_reference_invariant (db : DB)
    (salt freshUuid : String) (now : Nat) :
    (∀ data : ClientCreate, clientsRefValid db →
       clientsRefValid (register_client data salt freshUuid now db).1) ∧
    (∀ data : ClientCreate, clientsRefValid db →
       clientsRefValid (create_client_by_admin data salt freshUuid now db).1) ∧
    (∀ cid u, clientsRefValid db →
       clientsRefValid (update_existing_client_api cid u salt db).1) := by
  refine ⟨?_, ?_, ?_⟩
  · intro data hv
    by_cases h1 : (get_client_by_username db data.username).isSome = true
    · simpa [register_client, h1] using hv
    · by_cases h2 : (get_client_by_email db data.contact_email).isSome = true
      · simpa [register_client, h1, h2] using hv
      · by_cases h3 : (get_subscription_type_by_id db data.subscription_type_id).isNone = true
        · simpa [register_client, h1, h2, h3] using hv
        · have hsome : (get_subscription_type_by_id db data.subscription_type_id).isSome = true := by
            cases hopt : get_subscription_type_by_id db data.subscription_type_id with
            | none => rw [hopt] at h3; simp at h3
            | some st => rfl
          unfold register_client
          rw [if_neg h1, if_neg h2, if_neg h3]
          exact clientsRefValid_append db _ hv hsome
  · intro data hv
    by_cases h1 : (get_client_by_username db data.username).isSome = true
    · simpa [create_client_by_admin, h1] using hv
    · by_cases h2 : (get_client_by_email db data.contact_email).isSome = true
      · simpa [create_client_by_admin, h1, h2] using hv
      · by_cases h3 : (get_subscription_type_by_id db data.subscription_type_id).isNone = true
        · simpa [create_client_by_admin, h1, h2, h3] using hv
        · have hsome : (get_subscription_type_by_id db data.subscription_type_id).isSome = true := by
            cases hopt : get_subscription_type_by_id db data.subscription_type_id with
            | none => rw [hopt] at h3; simp at h3
            | some st => rfl
          unfold create_client_by_admin
          rw [if_neg h1, if_neg h2, if_neg h3]
          exact clientsRefValid_append db _ hv hsome
  · intro cid u hv
    unfold update_existing_client_api
    cases hlook : get_client_by_id db cid with
    | none => exact hv
    | some c0 =>
      unfold update_client
      by_cases hok : clientRowIntegrityOk db (apply_client_update c0 u salt)
      · dsimp only
        rw [if_pos hok]
        exact clientsRefValid_map_update db c0 _ hv (clientRowIntegrityOk_fk hok)
      · dsimp only
        rw [if_neg hok]
        exact hv

/-- Witness for C8: in the concrete C8 state, even an update naming the
nonexistent subscription type 2 leaves the invariant intact (the commit
fails, persisting nothing), exercising the theorem's update conjunct. -/
theorem c8_http_surface_preserves_reference_invariant_witness :
    clientsRefValid
      (update_existing_client_api 1 { subscription_type_id := some 2 } "s" c8_db).1 :=
  (c8_http_surface_preserves_reference_invariant c8_db "s" "u" 0).2.2 1
    { subscription_type_id := some 2 } (by decide)

/-! ## C9: future plan creation reads absent schema fields -/

/-- Claim C9: for every form input, `POST /api/admin/future_plans/` raises
`AttributeError` — `create_future_plan` reads `short_description` (and
further fields) from a `FuturePlanCreate` that defines only `title`,
`description`, `category` and `is_active` — so no future plan is ever
created and the store is unchanged. -/
theorem c9_future_plan_create_raises (title : String)
    (description category : Option String) (is_active : Bool) (db : DB) :
    create_new_future_plan_api title description category is_active db =
      (db, .error PyErr.attributeError) := rfl

/-! ## C10: sidebar queries pass an unsupported limit keyword -/

/-- Claim C10: for every existing published blog post the detail page
raises `TypeError` (the call passes `limit=5` which `get_all_blog_posts`
does not accept), the future-plan detail page fails the same way, and
`GET /api/admin/future_plans/` with a `limit` query parameter raises
`TypeError` because `get_all_future_plans` accepts no `limit` either. -/
theorem c10_limit_kwarg_type_error (db : DB) :
    (∀ post_id post, get_blog_post_by_id db post_id = some post →
       post.is_published = true →
       blog_post_detail_page post_id db = .error (.py .typeError)) ∧
    (∀ plan_id plan, get_future_plan_by_id db plan_id = some plan →
       pyTruthy plan.is_active = true →
       future_plan_detail_page plan_id db = .error (.py .typeError)) ∧
    (∀ is_active lim, get_all_future_plans_api is_active (some lim) db =
       .error (.py .typeError)) := by
  refine ⟨?_, ?_, ?_⟩
  · intro post_id post h hp
    have hcall : pyCallKwargsCheck get_all_blog_posts_params ["is_published", "limit"] =
        .error PyErr.typeError := rfl
    simp [blog_post_detail_page, h, hp, hcall]
  · intro plan_id plan h hp
    have hcall : pyCallKwargsCheck get_all_future_plans_params ["is_active", "limit"] =
        .error PyErr.typeError := rfl
    simp [future_plan_detail_page, h, hp, hcall]
  · intro is_active lim
    rfl

/-- Witness for C10 at a concrete published post and active plan. -/
theorem c10_limit_kwarg_type_error_witness :
    blog_post_detail_page 1 c10w_db = .error (.py .typeError) ∧
    future_plan_detail_page 1 c10w_db = .error (.py .typeError) ∧
    get_all_future_plans_api (some true) (some 5) c10w_db =
      .error (.py .typeError) :=
  ⟨(c10_limit_kwarg_type_error c10w_db).1 1 c10w_post rfl rfl,
   (c10_limit_kwarg_type_error c10w_db).2.1 1 c10w_plan rfl rfl,
   (c10_limit_kwarg_type_error c10w_db).2.2 (some true) 5⟩

end Smartio
